import Mathlib

/-!
Verification of the kurobako contrib protocol bridge.

The development shallowly embeds two programs:

* the optuna solver adapter (kurobako_solvers/contrib/optuna_solver.py):
  parameter sampling (Objective._suggest), the per-trial ASK/TELL loop
  (Objective.__call__), and the study-level exception handling
  (study.optimize with catch=(KurobakoError,));
* the lightgbm problem evaluator (kurobako_problems/contrib/lightgbm_problem.py):
  budget-driven incremental training (Evaluator.handle_eval) and the
  wire decoding of sampled parameters (Evaluator.__init__).

Python dictionaries become structures, the JSON wire form becomes an
inductive Json type, the blocking stdin/stdout channel becomes an explicit
list of incoming messages and a list of emitted messages, and the external
optuna trial object becomes an explicit TrialState holding the sampled
parameters, the pending sampler draws and the reported intermediate values.
Fatal Python exceptions (AssertionError, KeyError, ValueError, EOFError)
become a fatal outcome or an Except error.
-/

/-- Values a Python optuna trial can store for a parameter: the float of a
suggest_uniform draw, the int of a suggest_int draw, or the raw category
string of a suggest_categorical draw. -/
inductive PyVal where
  | float (q : ℚ)
  | int (i : Int)
  | str (s : String)
deriving DecidableEq

/-- Coercion used when a stored parameter is read back where a float is
expected (optuna returns the stored value unchanged on a repeated suggest
with the same name). -/
def PyVal.toFloat : PyVal → ℚ
  | .float q => q
  | .int i => (i : ℚ)
  | .str _ => 0

/-- Coercion used when a stored parameter is read back where a category
string is expected. -/
def PyVal.toStr : PyVal → String
  | .str s => s
  | _ => ""

/-- Continuous distributions of the params-domain wire format
(optuna_solver.py lines 55-65). -/
inductive Distribution where
  | uniform
  | logUniform
deriving DecidableEq

/-- Parameter-domain variants of the params-domain wire format, as consumed
by Objective._suggest (optuna_solver.py lines 53-83): continuous, discrete,
categorical and recursively nested conditional domains.  A conditional
domain carries the dependent parameter name and choice list from
condition.member. -/
inductive ParamDomain where
  | continuous (name : String) (distribution : Distribution) (low high : ℚ)
  | discrete (name : String) (low high : Int)
  | categorical (name : String) (choices : List String)
  | conditional (name : String) (memberName : String) (memberChoices : List String)
      (param : ParamDomain)
deriving DecidableEq

/-- Sampled parameter values as placed on the wire by Objective._suggest:
a categorical value travels as the zero-based index returned by
choices.index(category) (optuna_solver.py line 72), and an unmet
conditional travels as null (line 81). -/
inductive ParamValue where
  | continuous (q : ℚ)
  | discrete (i : Int)
  | categorical (idx : Nat)
  | conditional (v : Option ParamValue)

/-- Record of one call made to the optuna trial object while sampling. -/
inductive SuggestCall where
  | uniform (name : String) (low high : ℚ)
  | int (name : String) (low high : Int)
  | categorical (name : String) (choices : List String)
deriving DecidableEq

/-- State of the external optuna trial object as visible through the
interface the adapter uses: params is the name-to-value map of already
sampled parameters (trial.params), floats/ints/cats are the sampler's
pending draws (the black-box RNG modelled as explicit streams), callLog
records every suggest call issued, and reported records the (step, value)
pairs passed to trial.report. -/
structure TrialState where
  params : List (String × PyVal)
  floats : List ℚ
  ints : List Int
  cats : List Nat
  callLog : List SuggestCall
  reported : List (Int × ℚ)
deriving DecidableEq

/-- Lookup of an already sampled parameter by name, the Python test
  (dependent_param_name in trial.params) and read trial.params[name]. -/
def lookupParam (st : TrialState) (name : String) : Option PyVal :=
  (st.params.find? (fun q => q.1 == name)).map (fun q => q.2)

/-- Python membership test (v in choices) where choices is a list of
strings: true exactly when v equals one of the strings. -/
def pyIn (v : PyVal) (choices : List String) : Bool :=
  (choices.map PyVal.str).contains v

/-- Embedding of trial.suggest_uniform(name, low, high): log the call; if
the name was already sampled return the stored value, otherwise consume one
draw from the float stream and record the new parameter. -/
def suggest_uniform (st : TrialState) (name : String) (low high : ℚ) : ℚ × TrialState :=
  let st1 := { st with callLog := st.callLog ++ [SuggestCall.uniform name low high] }
  match lookupParam st name with
  | some v => (v.toFloat, st1)
  | none =>
    let q := st.floats.headD 0
    (q, { st1 with floats := st1.floats.tail, params := st1.params ++ [(name, PyVal.float q)] })

/-- Embedding of trial.suggest_int(name, low, high). -/
def suggest_int (st : TrialState) (name : String) (low high : Int) : Int × TrialState :=
  let st1 := { st with callLog := st.callLog ++ [SuggestCall.int name low high] }
  match lookupParam st name with
  | some v =>
    (match v with
     | PyVal.int i => i
     | _ => 0, st1)
  | none =>
    let i := st.ints.headD 0
    (i, { st1 with ints := st1.ints.tail, params := st1.params ++ [(name, PyVal.int i)] })

/-- Embedding of trial.suggest_categorical(name, choices): the sampler
returns one element of choices (the pending draw selects which). -/
def suggest_categorical (st : TrialState) (name : String) (choices : List String) :
    String × TrialState :=
  let st1 := { st with callLog := st.callLog ++ [SuggestCall.categorical name choices] }
  match lookupParam st name with
  | some v => (v.toStr, st1)
  | none =>
    let n := st.cats.headD 0
    let c := choices.getD (n % choices.length) ""
    (c, { st1 with cats := st1.cats.tail, params := st1.params ++ [(name, PyVal.str c)] })

/-- Embedding of Objective._suggest (optuna_solver.py lines 53-83).  Note
that the source's log-uniform branch (lines 60-63) calls
trial.suggest_uniform exactly like the uniform branch (lines 56-59); the
embedding reproduces that faithfully.  The conditional branch (lines 74-81)
first looks the dependent parameter up by name in trial.params and checks
membership in the declared choices; only then is the nested domain sampled,
otherwise conditional None is returned with no call to the sampler. -/
def _suggest : ParamDomain → TrialState → ParamValue × TrialState
  | .continuous name dist low high, st =>
    match dist with
    | .uniform =>
      let r := suggest_uniform st name low high
      (.continuous r.1, r.2)
    | .logUniform =>
      let r := suggest_uniform st name low high
      (.continuous r.1, r.2)
  | .discrete name low high, st =>
    let r := suggest_int st name low high
    (.discrete r.1, r.2)
  | .categorical name choices, st =>
    let r := suggest_categorical st name choices
    (.categorical (choices.indexOf r.1), r.2)
  | .conditional _ depName depChoices p, st =>
    match lookupParam st depName with
    | some v =>
      if pyIn v depChoices then
        let r := _suggest p st
        (.conditional (some r.1), r.2)
      else (.conditional none, st)
    | none => (.conditional none, st)

/-- Condition of the conditional branch of Objective._suggest as a single
boolean: the dependent parameter has already been sampled in this trial and
its value is among the declared choices. -/
def condMet (st : TrialState) (depName : String) (depChoices : List String) : Bool :=
  match lookupParam st depName with
  | some v => pyIn v depChoices
  | none => false

/-- Sampling loop of Objective.__call__ (optuna_solver.py lines 86-88):
sample every domain of the params-domain list in order, threading the trial
state. -/
def suggestAll : List ParamDomain → TrialState → List ParamValue × TrialState
  | [], st => ([], st)
  | d :: ds, st =>
    let r := _suggest d st
    let rs := suggestAll ds r.2
    (r.1 :: rs.1, rs.2)

/-- JSON values as they appear on the wire for a single parameter value:
json.dumps of the dicts built by Objective._suggest produces one-key
objects, numbers, strings and null. -/
inductive Json where
  | num (q : ℚ)
  | str (s : String)
  | null
  | obj (fields : List (String × Json))

/-- Modelled from the spec: the wire encoding of one ParamValue.  The
kurobako core that serializes ParamValue sequences is not under src; the
shapes follow the dicts produced by Objective._suggest (optuna_solver.py
lines 59, 69, 73, 80-81): a one-key object whose key names the variant,
with the categorical value as its zero-based index into choices (never the
raw category string) and an unmet conditional as null. -/
def encodeWire : ParamValue → Json
  | .continuous q => .obj [("continuous", .num q)]
  | .discrete i => .obj [("discrete", .num (i : ℚ))]
  | .categorical idx => .obj [("categorical", .num (idx : ℚ))]
  | .conditional none => .obj [("conditional", .null)]
  | .conditional (some v) => .obj [("conditional", encodeWire v)]

/-- Modelled from the spec: the wire decoding of one ParamValue, the
inverse reading of the same one-key objects (the kurobako core that parses
them is not under src).  Non-integral or negative numbers where an integer
index is required, and any unrecognized shape, fail to decode. -/
def decodeWire : Json → Option ParamValue
  | .obj [("continuous", .num q)] => some (.continuous q)
  | .obj [("discrete", .num q)] =>
    if q.den = 1 then some (.discrete q.num) else none
  | .obj [("categorical", .num q)] =>
    if q.den = 1 then
      if 0 ≤ q.num then some (.categorical q.num.toNat) else none
    else none
  | .obj [("conditional", .null)] => some (.conditional none)
  | .obj [("conditional", j)] =>
    (decodeWire j).map (fun v => .conditional (some v))
  | _ => none

/-- Wire encoding of a positional ParamValue sequence. -/
def encodeParams (vs : List ParamValue) : List Json :=
  vs.map encodeWire

/-- Wire decoding of a positional ParamValue sequence; fails if any element
fails to decode. -/
def decodeParams : List Json → Option (List ParamValue)
  | [] => some []
  | j :: js =>
    match decodeWire j with
    | none => none
    | some v => (decodeParams js).map (fun vs => v :: vs)

/-- Budget dictionary of the wire protocol: amount is the cumulative step
allotment, consumption the steps actually executed. -/
structure Budget where
  amount : Int
  consumption : Int
deriving DecidableEq

/-- Decoding of one positional wire parameter into the lightgbm training
parameter dictionary, from the zip loop of Evaluator.__init__
(lightgbm_problem.py lines 67-75): a continuous or discrete value is taken
as is, a categorical value indexes back into the domain's choices list
(choices[idx], raising IndexError when the index is out of range), and
any other domain kind raises ValueError; a value whose variant does not
match the domain's kind raises KeyError in Python (reading the absent
key). -/
def evalParamEntry : ParamDomain → ParamValue → Except String (String × PyVal)
  | .continuous name _ _ _, .continuous q => .ok (name, .float q)
  | .discrete name _ _, .discrete i => .ok (name, .int i)
  | .categorical name choices, .categorical idx =>
    match choices.get? idx with
    | some c => .ok (name, .str c)
    | none => .error "IndexError"
  | .conditional _ _ _ _, _ => .error "ValueError"
  | _, _ => .error "KeyError"

/-- Modelled behavior of lgb.train with init_model and
keep_training_booster (an external library): training resumes from the
prior booster, so the cumulative iteration count after training is the
prior count (0 for a fresh model) plus num_boost_round. -/
def lgbTrain (gbm : Option Int) (num_boost_round : Int) : Int :=
  gbm.getD 0 + num_boost_round

/-- Embedding of Evaluator.handle_eval (lightgbm_problem.py lines 79-103),
with the training step abstracted as the train argument (the booster state
is its cumulative iteration count).  The call trains
max(min_iterations, amount - consumption) further rounds, asserts that the
booster's cumulative iteration count equals that round count plus the
consumption before the call (line 100; AssertionError is fatal), and writes
the cumulative count into budget.consumption.  Returns the new booster
state and the updated budget. -/
def handle_eval (train : Option Int → Int → Int) (min_iterations : Int)
    (gbm : Option Int) (budget : Budget) : Except String (Int × Budget) :=
  let num_boost_round := max min_iterations (budget.amount - budget.consumption)
  let gbm1 := train gbm num_boost_round
  if gbm1 = num_boost_round + budget.consumption then
    Except.ok (gbm1, { budget with consumption := gbm1 })
  else Except.error "AssertionError"

/-- Messages the solver adapter can receive inside Objective.__call__:
an ASK_CALL carrying the next trial's id hint, a TELL_CALL carrying the
observed values and the budget, or anything else (which line 146 rejects
with ValueError). -/
inductive InMsg where
  | askCall (id_hint : Int)
  | tellCall (values : List ℚ) (budget : Budget)
  | other
deriving DecidableEq

/-- Messages the solver adapter emits: ASK_REPLY with trial id, positional
params and budget, or an empty TELL_REPLY. -/
inductive OutMsg where
  | askReply (id : Int) (params : List ParamValue) (budget : Budget)
  | tellReply

/-- How one invocation of Objective.__call__ ends: returning a terminal
value, raising optuna.structs.TrialPruned with the step and value, raising
KurobakoError (used when the harness preempts the trial with a fresh
ASK_CALL), or dying on a fatal Python exception. -/
inductive Outcome where
  | completed (value : ℚ)
  | prunedSignal (step : Int) (value : ℚ)
  | kurobakoError
  | fatal (msg : String)
deriving DecidableEq

/-- Discriminator for the terminal-value outcome. -/
def Outcome.isCompleted : Outcome → Bool
  | .completed _ => true
  | _ => false

/-- Discriminator for the optuna pruning signal. -/
def Outcome.isPrunedSignal : Outcome → Bool
  | .prunedSignal _ _ => true
  | _ => false

/-- Exceptions the surrounding study loop absorbs without aborting the
study: study.optimize is called with catch=(KurobakoError,)
(optuna_solver.py line 177), and optuna itself recovers from its own
TrialPruned signal; both are therefore recoverable outcomes. -/
def studyCatches : Outcome → Bool
  | .kurobakoError => true
  | .prunedSignal _ _ => true
  | _ => false

/-- Static configuration of one solver run: the problem's
evaluation-expense, whether the pruner CLI choice was none, the pruning
policy (trial.should_prune as a function of the reported history and the
step), and the problem's params-domain. -/
structure Config where
  evaluation_expense : Int
  prunerNone : Bool
  shouldPrune : List (Int × ℚ) → Int → Bool
  params_domain : List ParamDomain

/-- Result of running Objective.__call__ against a list of incoming
messages: the emitted messages, the outcome, the stored next-trial id
(self.next_id) and the final trial state. -/
structure LoopResult where
  outputs : List OutMsg
  outcome : Outcome
  nextId : Int
  trial : TrialState

/-- Embedding of trial.report(value, step): append the pair to the trial's
reported intermediate values. -/
def trialAfterReport (st : TrialState) (step : Int) (value : ℚ) : TrialState :=
  { st with reported := st.reported ++ [(step, value)] }

/-- Handling of one TELL_CALL inside the while loop of Objective.__call__
(optuna_solver.py lines 110-144).  m2 is the message read after printing
TELL_REPLY (none when the input stream is exhausted, which raises
EOFError); cont continues the loop after a non-pruned intermediate step,
taking the trial state extended by trial.report.  With consumption equal to
evaluation-expense the told value becomes the trial's return value and the
following ASK_CALL's id hint is stored (lines 114-120).  Below the expense
the code asserts the step is smaller and a pruner is active, reports the
value, and either prunes (TELL_REPLY, read id hint, raise TrialPruned,
lines 126-133) or re-asks the same trial id and params with the told
budget's amount incremented by one, ignoring the intervening message
entirely (lines 135-144). -/
def tellStep (cfg : Config) (params : List ParamValue) (trial : TrialState)
    (nid : Int) (value : ℚ) (budget : Budget) (m2 : Option InMsg)
    (cont : TrialState → LoopResult) : LoopResult :=
  let step := budget.consumption
  if step = cfg.evaluation_expense then
    match m2 with
    | some (.askCall h) => ⟨[.tellReply], .completed value, h, trial⟩
    | some _ => ⟨[.tellReply], .fatal "KeyError", nid, trial⟩
    | none => ⟨[.tellReply], .fatal "EOFError", nid, trial⟩
  else if step < cfg.evaluation_expense then
    if cfg.prunerNone then
      ⟨[], .fatal "AssertionError", nid, trial⟩
    else
      let trial1 := trialAfterReport trial step value
      if cfg.shouldPrune trial1.reported step then
        match m2 with
        | some (.askCall h) => ⟨[.tellReply], .prunedSignal step value, h, trial1⟩
        | some _ => ⟨[.tellReply], .fatal "KeyError", nid, trial1⟩
        | none => ⟨[.tellReply], .fatal "EOFError", nid, trial1⟩
      else
        match m2 with
        | none => ⟨[.tellReply], .fatal "EOFError", nid, trial1⟩
        | some _ =>
          let budget2 : Budget := ⟨budget.amount + 1, budget.consumption⟩
          let r := cont trial1
          ⟨.tellReply :: .askReply nid params budget2 :: r.outputs,
            r.outcome, r.nextId, r.trial⟩
  else ⟨[], .fatal "AssertionError", nid, trial⟩

/-- Embedding of the while loop of Objective.__call__ (optuna_solver.py
lines 105-146) after the initial ASK_REPLY has been printed.  params is the
sampled positional parameter list, nid the current self.next_id.  An
incoming ASK_CALL stores its id hint and raises KurobakoError (lines
107-109); an unrecognized message raises ValueError (line 146); an empty
values list in a TELL_CALL raises IndexError (line 112); a TELL_CALL is
handled by tellStep, continuing the loop on the messages after the one
tellStep reads. -/
def objLoop (cfg : Config) (params : List ParamValue) (trial : TrialState)
    (nid : Int) : List InMsg → LoopResult
  | [] => ⟨[], .fatal "EOFError", nid, trial⟩
  | .other :: _ => ⟨[], .fatal "ValueError", nid, trial⟩
  | .askCall h :: _ => ⟨[], .kurobakoError, h, trial⟩
  | .tellCall [] _ :: _ => ⟨[], .fatal "IndexError", nid, trial⟩
  | [.tellCall (value :: _) budget] =>
    tellStep cfg params trial nid value budget none
      (fun trial1 => ⟨[], .fatal "EOFError", nid, trial1⟩)
  | .tellCall (value :: _) budget :: m2 :: rest2 =>
    tellStep cfg params trial nid value budget (some m2)
      (fun trial1 => objLoop cfg params trial1 nid rest2)

/-- Embedding of one invocation of Objective.__call__ (optuna_solver.py
lines 85-146): sample every domain, print the initial ASK_REPLY whose
budget amount is the full evaluation-expense when the pruner is none and 1
otherwise with consumption 0 (lines 90-103), then run the message loop. -/
def objectiveCall (cfg : Config) (st0 : TrialState) (nid : Int)
    (msgs : List InMsg) : LoopResult :=
  let s := suggestAll cfg.params_domain st0
  let amount : Int := if cfg.prunerNone then cfg.evaluation_expense else 1
  let r := objLoop cfg s.1 s.2 nid msgs
  ⟨.askReply nid s.1 ⟨amount, 0⟩ :: r.outputs, r.outcome, r.nextId, r.trial⟩

/-- Empty optuna trial state: nothing sampled, no pending draws, nothing
reported. -/
def trial0 : TrialState := ⟨[], [], [], [], [], []⟩

/-- Concrete configuration used by closed instances: evaluation-expense 5,
pruner active, a policy that never prunes, empty params-domain. -/
def cfg0 : Config := ⟨5, false, fun _ _ => false, []⟩

/-- Concrete configuration whose pruning policy always prunes. -/
def cfgP : Config := ⟨5, false, fun _ _ => true, []⟩

/-- C9: for every trial, the first ASK_REPLY carries budget consumption 0
and amount equal to evaluation_expense when no pruning policy is active,
and amount equal to 1 when a pruning policy is active. -/
theorem initial_ask_budget (cfg : Config) (st0 : TrialState) (nid : Int)
    (msgs : List InMsg) :
    (objectiveCall cfg st0 nid msgs).outputs.head? =
      some (OutMsg.askReply nid (suggestAll cfg.params_domain st0).1
        ⟨if cfg.prunerNone then cfg.evaluation_expense else 1, 0⟩) := rfl

/-- C5: when a TELL_CALL reports budget consumption equal to
evaluation_expense, the adapter emits exactly one TELL_REPLY, stores the
next ASK_CALL's id hint, and returns the told value as the trial's
terminal value; the loop ends there, so no further ASK for that trial is
emitted before the next trial's ASK. -/
theorem tell_complete_returns_value (cfg : Config) (params : List ParamValue)
    (trial : TrialState) (nid : Int) (v : ℚ) (vs : List ℚ) (b : Budget)
    (h : Int) (rest : List InMsg)
    (hc : b.consumption = cfg.evaluation_expense) :
    objLoop cfg params trial nid (.tellCall (v :: vs) b :: .askCall h :: rest) =
      ⟨[OutMsg.tellReply], Outcome.completed v, h, trial⟩ := by
  simp [objLoop, tellStep, hc]

/-- Witness for tell_complete_returns_value at a concrete input. -/
theorem tell_complete_returns_value_w :
    objLoop cfg0 [] trial0 0 [.tellCall [(1 : ℚ)] ⟨5, 5⟩, .askCall 9] =
      ⟨[OutMsg.tellReply], Outcome.completed 1, 9, trial0⟩ :=
  tell_complete_returns_value cfg0 [] trial0 0 1 [] ⟨5, 5⟩ 9 [] rfl

/-- C3: when the pruning policy signals prune at an intermediate step
(consumption below evaluation_expense), the adapter emits TELL_REPLY,
stores the next ASK_CALL's id hint as the next trial id, and raises the
recoverable TrialPruned signal; the outcome is never a returned numeric
value. -/
theorem tell_prune_raises_signal (cfg : Config) (params : List ParamValue)
    (trial : TrialState) (nid : Int) (v : ℚ) (vs : List ℚ) (b : Budget)
    (h : Int) (rest : List InMsg)
    (hlt : b.consumption < cfg.evaluation_expense)
    (hp : cfg.prunerNone = false)
    (hsp : cfg.shouldPrune (trialAfterReport trial b.consumption v).reported
      b.consumption = true) :
    objLoop cfg params trial nid (.tellCall (v :: vs) b :: .askCall h :: rest) =
      ⟨[OutMsg.tellReply], Outcome.prunedSignal b.consumption v, h,
        trialAfterReport trial b.consumption v⟩ ∧
    studyCatches (objLoop cfg params trial nid
      (.tellCall (v :: vs) b :: .askCall h :: rest)).outcome = true ∧
    (objLoop cfg params trial nid
      (.tellCall (v :: vs) b :: .askCall h :: rest)).outcome.isCompleted = false := by
  have hne : b.consumption ≠ cfg.evaluation_expense := ne_of_lt hlt
  refine ⟨?_, ?_, ?_⟩ <;>
    simp [objLoop, tellStep, hne, hlt, hp, hsp, studyCatches, Outcome.isCompleted]

/-- Witness for tell_prune_raises_signal at a concrete input. -/
theorem tell_prune_raises_signal_w :
    objLoop cfgP [] trial0 0 [.tellCall [(2 : ℚ)] ⟨1, 1⟩, .askCall 3] =
      ⟨[OutMsg.tellReply], Outcome.prunedSignal 1 2, 3,
        trialAfterReport trial0 1 2⟩ ∧
    studyCatches (objLoop cfgP [] trial0 0
      [.tellCall [(2 : ℚ)] ⟨1, 1⟩, .askCall 3]).outcome = true ∧
    (objLoop cfgP [] trial0 0
      [.tellCall [(2 : ℚ)] ⟨1, 1⟩, .askCall 3]).outcome.isCompleted = false :=
  tell_prune_raises_signal cfgP [] trial0 0 2 [] ⟨1, 1⟩ 3 []
    (by decide) rfl rfl

/-- C4 (amended): when an ASK_CALL arrives while the adapter is awaiting a
TELL_CALL, the adapter stores the provided id hint and raises
KurobakoError, a recoverable exception absorbed by the study loop via
catch, but distinct from the optimizer's pruning signal; no intermediate
value is observed (the trial state is unchanged) and nothing is emitted. -/
theorem ask_preempt_kurobako (cfg : Config) (params : List ParamValue)
    (trial : TrialState) (nid : Int) (h : Int) (rest : List InMsg) :
    objLoop cfg params trial nid (.askCall h :: rest) =
      ⟨[], Outcome.kurobakoError, h, trial⟩ ∧
    studyCatches Outcome.kurobakoError = true ∧
    Outcome.isPrunedSignal Outcome.kurobakoError = false :=
  ⟨rfl, rfl, rfl⟩

/-- C4 (counterexample): at a concrete preemption the outcome is
KurobakoError, which is not the pruning signal, refuting the claim that the
adapter treats harness preemption identically to a prune signal. -/
theorem ask_preempt_not_pruned_signal :
    (objLoop cfg0 [] trial0 0 [InMsg.askCall 7]).outcome = Outcome.kurobakoError ∧
    (objLoop cfg0 [] trial0 0 [InMsg.askCall 7]).outcome.isPrunedSignal = false :=
  ⟨rfl, rfl⟩

/-- C10: on an intermediate TELL_CALL that does not trigger pruning, the
adapter re-issues an ASK_REPLY with the same id and params as the trial's
original ASK_REPLY, and with the TELL_CALL's budget with amount incremented
by exactly one and consumption unchanged; the intervening message m is
consumed but never inspected, its id hint is not stored, and the loop
continues with the stored next-trial id unchanged. -/
theorem tell_continue_reissues_ask (cfg : Config) (st0 : TrialState)
    (nid : Int) (v : ℚ) (vs : List ℚ) (b : Budget) (m : InMsg)
    (rest : List InMsg)
    (hlt : b.consumption < cfg.evaluation_expense)
    (hp : cfg.prunerNone = false)
    (hsp : cfg.shouldPrune
      (trialAfterReport (suggestAll cfg.params_domain st0).2 b.consumption v).reported
      b.consumption = false) :
    objectiveCall cfg st0 nid (.tellCall (v :: vs) b :: m :: rest) =
      ⟨OutMsg.askReply nid (suggestAll cfg.params_domain st0).1 ⟨1, 0⟩ ::
        OutMsg.tellReply ::
        OutMsg.askReply nid (suggestAll cfg.params_domain st0).1
          ⟨b.amount + 1, b.consumption⟩ ::
        (objLoop cfg (suggestAll cfg.params_domain st0).1
          (trialAfterReport (suggestAll cfg.params_domain st0).2 b.consumption v)
          nid rest).outputs,
       (objLoop cfg (suggestAll cfg.params_domain st0).1
          (trialAfterReport (suggestAll cfg.params_domain st0).2 b.consumption v)
          nid rest).outcome,
       (objLoop cfg (suggestAll cfg.params_domain st0).1
          (trialAfterReport (suggestAll cfg.params_domain st0).2 b.consumption v)
          nid rest).nextId,
       (objLoop cfg (suggestAll cfg.params_domain st0).1
          (trialAfterReport (suggestAll cfg.params_domain st0).2 b.consumption v)
          nid rest).trial⟩ := by
  have hne : b.consumption ≠ cfg.evaluation_expense := ne_of_lt hlt
  simp [objectiveCall, objLoop, tellStep, hne, hlt, hp, hsp]

/-- Witness for tell_continue_reissues_ask at a concrete input: the harness
tells an intermediate value at consumption 1 of 5, does not prune, and the
adapter re-asks the same id 0 with amount 3 = 2 + 1. -/
theorem tell_continue_reissues_ask_w :
    objectiveCall cfg0 trial0 0 [.tellCall [(4 : ℚ)] ⟨2, 1⟩, .other] =
      ⟨[OutMsg.askReply 0 [] ⟨1, 0⟩, OutMsg.tellReply,
        OutMsg.askReply 0 [] ⟨3, 1⟩],
       Outcome.fatal "EOFError", 0, trialAfterReport trial0 1 4⟩ := by
  have h := tell_continue_reissues_ask cfg0 trial0 0 4 [] ⟨2, 1⟩ .other []
    (by decide) rfl rfl
  simpa [cfg0, suggestAll, objLoop] using h

/-- C1 (counterexample): an EVALUATE_CALL on a fresh booster with budget
amount 1 and consumption 0 under the default min-iterations of 10 succeeds
with consumption updated to 10, which exceeds the amount 1, refuting the
claim that consumption never exceeds amount after EVALUATE_CALL. -/
theorem eval_budget_overrun :
    handle_eval lgbTrain 10 none ⟨1, 0⟩ = Except.ok (10, ⟨1, 10⟩) ∧
    (Budget.mk 1 10).amount < (Budget.mk 1 10).consumption :=
  ⟨rfl, by decide⟩

/-- C1 (amended): across an EVALUATE_CALL the consumption never decreases
(given a non-negative min-iterations), the new consumption equals the old
one plus the executed work max(min_iterations, amount - consumption), and
consumption stays at most amount exactly when the remaining budget covers
min_iterations; when it does not, the consumption overshoots the amount. -/
theorem eval_consumption_monotone (min_iterations : Int) (gbm : Option Int)
    (b : Budget) (g1 : Int) (b1 : Budget)
    (hmin : 0 ≤ min_iterations)
    (hok : handle_eval lgbTrain min_iterations gbm b = Except.ok (g1, b1)) :
    b.consumption ≤ b1.consumption ∧
    b1.consumption = b.consumption + max min_iterations (b.amount - b.consumption) ∧
    (min_iterations ≤ b.amount - b.consumption → b1.consumption ≤ b.amount) := by
  unfold handle_eval lgbTrain at hok
  dsimp only at hok
  split at hok
  · rename_i heq
    simp only [Except.ok.injEq, Prod.mk.injEq] at hok
    obtain ⟨hg, hb⟩ := hok
    subst hg
    subst hb
    dsimp only
    set r := max min_iterations (b.amount - b.consumption) with hr
    have h1 : min_iterations ≤ r := le_max_left _ _
    refine ⟨by omega, by omega, ?_⟩
    intro hrem
    have hmax : r = b.amount - b.consumption := by
      rw [hr]
      exact max_eq_right hrem
    omega
  · exact absurd hok (by simp)

/-- Witness for eval_consumption_monotone at a concrete input. -/
theorem eval_consumption_monotone_w :
    (Budget.mk 5 0).consumption ≤ (Budget.mk 5 5).consumption ∧
    (Budget.mk 5 5).consumption =
      (Budget.mk 5 0).consumption +
        max 2 ((Budget.mk 5 0).amount - (Budget.mk 5 0).consumption) ∧
    (2 ≤ (Budget.mk 5 0).amount - (Budget.mk 5 0).consumption →
      (Budget.mk 5 5).consumption ≤ (Budget.mk 5 0).amount) :=
  eval_consumption_monotone 2 none ⟨5, 0⟩ 5 ⟨5, 5⟩ (by decide) rfl

/-- C8: an EVALUATE_CALL on an existing session whose booster's cumulative
iteration count matches the budget's consumption executes exactly
max(min_iterations, amount - consumption) further rounds, after which the
budget's consumption equals that work plus the consumption before the call
(the booster's new cumulative count); and for any training step whose
resulting cumulative count mismatches, handle_eval dies on the assertion
instead of recovering. -/
theorem eval_work_and_consistency (train : Option Int → Int → Int)
    (min_iterations : Int) (gbm : Option Int) (b : Budget) :
    (gbm.getD 0 = b.consumption →
      handle_eval lgbTrain min_iterations gbm b =
        Except.ok (b.consumption + max min_iterations (b.amount - b.consumption),
          ⟨b.amount, b.consumption + max min_iterations (b.amount - b.consumption)⟩)) ∧
    (train gbm (max min_iterations (b.amount - b.consumption)) ≠
        max min_iterations (b.amount - b.consumption) + b.consumption →
      handle_eval train min_iterations gbm b = Except.error "AssertionError") := by
  constructor
  · intro hsync
    unfold handle_eval lgbTrain
    rw [hsync]
    simp [Int.add_comm]
  · intro hbad
    unfold handle_eval
    rw [if_neg hbad]

/-- Witness for eval_work_and_consistency at a concrete input: a synced
booster at 0 iterations with budget amount 30 trains 30 rounds, and a
training step claiming 7 cumulative iterations dies on the assertion. -/
theorem eval_work_and_consistency_w :
    handle_eval lgbTrain 10 none ⟨30, 0⟩ = Except.ok (30, ⟨30, 30⟩) ∧
    handle_eval (fun _ _ => 7) 10 none ⟨30, 0⟩ = Except.error "AssertionError" := by
  have h := eval_work_and_consistency (fun _ _ => 7) 10 none ⟨30, 0⟩
  exact ⟨h.1 rfl, h.2 (by decide)⟩

/-- C2: the log-uniform branch of Objective._suggest behaves exactly like
the uniform branch: it issues a plain trial.suggest_uniform call over
[low, high] (the silently-downgraded uniform draw), recorded as a uniform
suggest call in the trial's call log, with no log-space draw anywhere. -/
theorem loguniform_downgraded_to_uniform (name : String) (low high : ℚ)
    (st : TrialState) :
    _suggest (ParamDomain.continuous name Distribution.logUniform low high) st =
      _suggest (ParamDomain.continuous name Distribution.uniform low high) st ∧
    (_suggest (ParamDomain.continuous name Distribution.logUniform low high) st).2.callLog =
      st.callLog ++ [SuggestCall.uniform name low high] := by
  constructor
  · rfl
  · unfold _suggest suggest_uniform
    cases lookupParam st name <;> simp

/-- C7: the conditional branch of Objective._suggest invokes the nested
domain's sampler if and only if the dependent parameter, looked up by name
among the already-sampled values of this trial, has been sampled with a
value among the declared choices; otherwise it returns conditional None and
leaves the trial state untouched (no parameter recorded, no pending draw
consumed, no suggest call logged). -/
theorem conditional_gated (st : TrialState) (n dn : String)
    (dcs : List String) (p : ParamDomain) :
    _suggest (ParamDomain.conditional n dn dcs p) st =
      if condMet st dn dcs then
        (ParamValue.conditional (some (_suggest p st).1), (_suggest p st).2)
      else (ParamValue.conditional none, st) := by
  conv_lhs => rw [_suggest]
  unfold condMet
  cases h : lookupParam st dn
  · simp [h]
  · rename_i v
    by_cases hv : pyIn v dcs <;> simp [h, hv]

/-- Helper: every encoded ParamValue is a one-key JSON object. -/
theorem encodeWire_obj (v : ParamValue) : ∃ fs, encodeWire v = Json.obj fs := by
  cases v with
  | continuous q => exact ⟨_, rfl⟩
  | discrete i => exact ⟨_, rfl⟩
  | categorical idx => exact ⟨_, rfl⟩
  | conditional o => cases o <;> exact ⟨_, rfl⟩

/-- Helper: decoding inverts encoding for a single ParamValue, including
arbitrarily nested conditional values. -/
theorem decode_encode : ∀ v : ParamValue, decodeWire (encodeWire v) = some v
  | .continuous _ => rfl
  | .discrete i => by
    simp [encodeWire, decodeWire]
  | .categorical idx => by
    simp [encodeWire, decodeWire]
  | .conditional none => rfl
  | .conditional (some w) => by
    have ih := decode_encode w
    obtain ⟨fs, hfs⟩ := encodeWire_obj w
    rw [hfs] at ih
    simp [encodeWire, decodeWire, hfs, ih]

/-- Helper: decoding inverts encoding for a positional ParamValue
sequence. -/
theorem decode_encode_params (vs : List ParamValue) :
    decodeParams (encodeParams vs) = some vs := by
  induction vs with
  | nil => rfl
  | cons v vs ih =>
    simp only [encodeParams, List.map_cons, decodeParams, decode_encode v]
    simp only [encodeParams] at ih
    simp [ih]

/-- C6: encoding a ParamValue sequence to wire form and decoding it back
yields an identical sequence, for every domain variant including nested
conditionals; a categorical value travels as its zero-based index into
choices, never as the raw string, and the evaluator-side decode indexes
back into the choices list, recovering the category the index denotes
whenever it is in range. -/
theorem wire_roundtrip (vs : List ParamValue) (idx : Nat) (n : String)
    (cs : List String) (c : String)
    (hidx : cs.get? idx = some c) :
    decodeParams (encodeParams vs) = some vs ∧
    encodeWire (ParamValue.categorical idx) =
      Json.obj [("categorical", Json.num (idx : ℚ))] ∧
    evalParamEntry (ParamDomain.categorical n cs) (ParamValue.categorical idx) =
      Except.ok (n, PyVal.str c) := by
  refine ⟨decode_encode_params vs, rfl, ?_⟩
  rw [List.get?_eq_getElem?] at hidx
  simp [evalParamEntry, hidx]

/-- Witness for wire_roundtrip at a concrete input: a nested conditional
value round-trips, and index 1 into the boosting choices of the lightgbm
domain decodes back to the dart category. -/
theorem wire_roundtrip_w :
    decodeParams (encodeParams
        [ParamValue.conditional (some (ParamValue.categorical 1))]) =
      some [ParamValue.conditional (some (ParamValue.categorical 1))] ∧
    encodeWire (ParamValue.categorical 1) =
      Json.obj [("categorical", Json.num (1 : ℚ))] ∧
    evalParamEntry (ParamDomain.categorical "boosting" ["gbdt", "dart"])
        (ParamValue.categorical 1) =
      Except.ok ("boosting", PyVal.str "dart") :=
  wire_roundtrip [ParamValue.conditional (some (ParamValue.categorical 1))] 1
    "boosting" ["gbdt", "dart"] "dart" rfl
